import Mathlib

/-!
Formal model of the reward-backend request handlers found in the two revisions
of the repository: `src/api/index.js` (namespace `Api`) and
`src/unnamed/part_000` (namespace `P0`).

Modelling conventions
- Persistent tables (Supabase rows, the in-memory `actionIdStore` map) are
  association lists keyed by token id (`String`) or user id (`Int`).
- Timestamps are natural-number epoch milliseconds; every age or cooldown
  comparison subtracts them inside `Int`, exactly as JavaScript subtracts
  `Date.now()` values (so a timestamp lying in the future behaves as in JS).
- Currency amounts are rationals: the specification declares balances to be
  rational, and all amounts appearing in the source are decimal literals and
  sums/products of them.
- Collaborators the specification excludes (HTTP transport, the HMAC check of
  `initData`, the Telegram membership oracle, the random source, the outcome
  of a fire-and-forget network call) enter the model as explicit parameters.
- Interpolated parts of response message strings (ids, amounts) are carried as
  separate constructor fields instead of being spliced into the string.
-/

/-- Value bound to a key in an association list: first match, as for a JS
`Map.get` or a Supabase select-by-id returning `rows[0]`. -/
def tblGet {κ α : Type} [DecidableEq κ] : List (κ × α) → κ → Option α
  | [], _ => none
  | p :: rest, k => if p.1 = k then some p.2 else tblGet rest k

/-- Remove every binding of a key (JS `Map.delete`, Supabase `DELETE ?id=eq.k`). -/
def tblDel {κ α : Type} [DecidableEq κ] : List (κ × α) → κ → List (κ × α)
  | [], _ => []
  | p :: rest, k => if p.1 = k then tblDel rest k else p :: tblDel rest k

/-- Apply an update to every binding of a key (Supabase `PATCH ?id=eq.k`). -/
def tblUpd {κ α : Type} [DecidableEq κ] : List (κ × α) → κ → (α → α) → List (κ × α)
  | [], _, _ => []
  | p :: rest, k, f =>
    if p.1 = k then (p.1, f p.2) :: tblUpd rest k f else p :: tblUpd rest k f

/-- The commission message a reward handler of `part_000` dispatches to its own
`commission` endpoint (`handleWatchAd`, src/unnamed/part_000 lines 385-397):
`referral_id`, the referee `user_id`, and the already-multiplied amount. -/
structure CommissionMsg where
  referral_id : Int
  user_id : Int
  amount : ℚ
deriving DecidableEq

namespace P0

/-- Server constant `REWARD_PER_AD` (src/unnamed/part_000 line 19). -/
def REWARD_PER_AD : ℚ := 3

/-- Server constant `REFERRAL_COMMISSION_RATE = 0.05` (line 20). -/
def REFERRAL_COMMISSION_RATE : ℚ := 5 / 100

/-- Server constant `DAILY_MAX_ADS` (line 21). -/
def DAILY_MAX_ADS : Nat := 100

/-- Server constant `DAILY_MAX_SPINS` (line 22). -/
def DAILY_MAX_SPINS : Nat := 15

/-- Server constant `RESET_INTERVAL_MS` (line 23): six hours. -/
def RESET_INTERVAL_MS : Nat := 6 * 60 * 60 * 1000

/-- Server constant `MIN_TIME_BETWEEN_ACTIONS_MS` (line 24). -/
def MIN_TIME_BETWEEN_ACTIONS_MS : Int := 3000

/-- Server constant `ACTION_ID_EXPIRY_MS` (line 25). -/
def ACTION_ID_EXPIRY_MS : Int := 60000

/-- Server constant `SPIN_SECTORS` (line 26) of this revision. -/
def SPIN_SECTORS : List ℚ := [5, 10, 15, 20, 5]

/-- An entry of the in-memory `actionIdStore` map (lines 173-185): owning user
id, action type, and issuance timestamp. -/
structure TokenRecord where
  user_id : Int
  type : String
  timestamp : Nat
deriving DecidableEq

/-- The columns of a `users` row that the handlers of this revision read or
write (registration payload, lines 246-259). -/
structure User where
  balance : ℚ
  referral_id : Option Int
  is_banned : Bool
  daily_ads_watched : Nat
  daily_spins : Nat
  last_activity : Option Nat
  last_ad_watch : Option Nat
  last_spin : Option Nat
  reset_timestamp : Nat
deriving DecidableEq

/-- A row of the `transactions` table written by `handleCommission`
(lines 440-446). -/
structure TxnEntry where
  user_id : Int
  type : String
  amount : ℚ
  related_user_id : Int
  created_at : Nat
deriving DecidableEq

/-- The mutable state the modelled handlers of this revision touch: the
in-process `actionIdStore` and the `users` and `transactions` tables. -/
structure State where
  tokens : List (String × TokenRecord)
  users : List (Int × User)
  transactions : List TxnEntry
deriving DecidableEq

/-- Responses produced by the modelled handlers of this revision.  Success
payloads keep the fields the source serializes; error responses keep the
message and HTTP status passed to `sendError`. -/
inductive Resp
  | adOk (new_balance : ℚ) (daily_ads_watched : Nat) (reward : ℚ)
  | spinOk (new_balance : ℚ) (daily_spins : Nat) (reward : ℚ)
  | commissionOk (amount : ℚ) (referrer : Int)
  | err (message : String) (status : Nat)
deriving DecidableEq

/-- `consumeActionId` (src/unnamed/part_000 lines 187-200).  Looks a record up;
an absent record or a user-id/type mismatch fails without touching the store;
a matching record older than `ACTION_ID_EXPIRY_MS` is deleted and the call
fails; otherwise the record is deleted and the call succeeds. -/
def consumeActionId (store : List (String × TokenRecord)) (id : String)
    (user_id : Int) (ty : String) (now : Nat) :
    Bool × List (String × TokenRecord) :=
  match tblGet store id with
  | none => (false, store)
  | some record =>
    if record.user_id ≠ user_id ∨ record.type ≠ ty then (false, store)
    else if (now : Int) - (record.timestamp : Int) > ACTION_ID_EXPIRY_MS then
      (false, tblDel store id)
    else (true, tblDel store id)

/-- `isCooldownActive` (lines 211-215): no recorded activity means no
cooldown; otherwise active while less than `MIN_TIME_BETWEEN_ACTIONS_MS`
has elapsed. -/
def isCooldownActive (now : Nat) (lastActivity : Option Nat) : Bool :=
  match lastActivity with
  | none => false
  | some t => decide ((now : Int) - (t : Int) < MIN_TIME_BETWEEN_ACTIONS_MS)

/-- Result of `handleWatchAd` in this revision: the response, the state after
the handler body, and the commission message it fires at its own endpoint
without awaiting the result (lines 385-397). -/
structure WatchAdOut where
  resp : Resp
  state : State
  dispatched : Option CommissionMsg
deriving DecidableEq

/-- `handleWatchAd` (src/unnamed/part_000 lines 345-410).  Order of checks as
in the source: consume the action id, fetch the user, banned, cooldown, daily
ad quota; then credit the reward, bump the counter, refresh timestamps, and
dispatch the commission message when a `referral_id` is set. -/
def handleWatchAd (now : Nat) (user_id : Int) (action_id : String)
    (st : State) : WatchAdOut :=
  let c := consumeActionId st.tokens action_id user_id "watchAd" now
  let st1 : State := { st with tokens := c.2 }
  if c.1 = false then
    ⟨.err "Invalid or expired action ID. Please try again." 401, st1, none⟩
  else
    match tblGet st1.users user_id with
    | none => ⟨.err "User not found." 404, st1, none⟩
    | some user =>
      if user.is_banned then ⟨.err "User is banned." 403, st1, none⟩
      else if isCooldownActive now user.last_activity then
        ⟨.err "Too many requests. Please wait a moment." 429, st1, none⟩
      else if user.daily_ads_watched ≥ DAILY_MAX_ADS then
        ⟨.err "Daily ad limit reached. Please wait for the reset." 403, st1, none⟩
      else
        let reward := REWARD_PER_AD
        let newBalance := user.balance + reward
        let newAdsWatched := user.daily_ads_watched + 1
        let users := tblUpd st1.users user_id (fun u =>
          { u with balance := newBalance, daily_ads_watched := newAdsWatched,
                   last_ad_watch := some now, last_activity := some now })
        let msg := user.referral_id.map (fun rid =>
          CommissionMsg.mk rid user_id (reward * REFERRAL_COMMISSION_RATE))
        ⟨.adOk newBalance newAdsWatched reward, { st1 with users := users }, msg⟩

/-- `handleCommission` (src/unnamed/part_000 lines 415-454).  A missing or
banned referrer aborts without state change; otherwise the transferred amount
is floored (`Math.floor(amount)`, line 432), credited to the referrer, and
recorded in `transactions`. -/
def handleCommission (now : Nat) (referral_id user_id : Int) (amount : ℚ)
    (st : State) : Resp × State :=
  match tblGet st.users referral_id with
  | none => (.err "Referrer not found." 404, st)
  | some referrer =>
    if referrer.is_banned then
      (.err "Referrer is banned. Commission cancelled." 403, st)
    else
      let commissionAmount : ℚ := (⌊amount⌋ : ℚ)
      let newBalance := referrer.balance + commissionAmount
      let users := tblUpd st.users referral_id (fun u =>
        { u with balance := newBalance, last_activity := some now })
      let txns := st.transactions ++
        [TxnEntry.mk referral_id "commission" commissionAmount user_id now]
      (.commissionOk commissionAmount referral_id,
        { st with users := users, transactions := txns })

/-- `handleSpinResult` (src/unnamed/part_000 lines 497-552).  Consumes the
action id, validates the client-supplied `result_index` (`none` models a
`parseInt` producing `NaN`), checks user, ban, cooldown and spin quota, then
credits `SPIN_SECTORS[result_index]`. -/
def handleSpinResult (now : Nat) (user_id : Int) (action_id : String)
    (result_index : Option Int) (st : State) : Resp × State :=
  let c := consumeActionId st.tokens action_id user_id "spinResult" now
  let st1 : State := { st with tokens := c.2 }
  if c.1 = false then
    (.err "Invalid or expired spin action ID. Please try the spin again." 401, st1)
  else
    match result_index with
    | none => (.err "Invalid spin result index." 400, st1)
    | some sectorIndex =>
      if sectorIndex < 0 ∨ sectorIndex ≥ (SPIN_SECTORS.length : Int) then
        (.err "Invalid spin result index." 400, st1)
      else
        match tblGet st1.users user_id with
        | none => (.err "User not found." 404, st1)
        | some user =>
          if user.is_banned then (.err "User is banned." 403, st1)
          else if isCooldownActive now user.last_activity then
            (.err "Too many requests. Please wait a moment." 429, st1)
          else if user.daily_spins ≥ DAILY_MAX_SPINS then
            (.err "Daily spin limit reached. Please wait for the reset." 403, st1)
          else
            let reward := SPIN_SECTORS.getD sectorIndex.toNat 0
            let newBalance := user.balance + reward
            let newSpins := user.daily_spins + 1
            let users := tblUpd st1.users user_id (fun u =>
              { u with balance := newBalance, daily_spins := newSpins,
                       last_spin := some now, last_activity := some now })
            (.spinOk newBalance newSpins reward, { st1 with users := users })

/-- The existing-user branch of `handleGetUserData` (src/unnamed/part_000
lines 270-290): once the rolling `reset_timestamp` has passed, both daily
counters are zeroed and the timer restarted, with no condition on the
counters; in either case `last_activity` is refreshed. -/
def getUserDataRefresh (now : Nat) (u : User) : User :=
  if now ≥ u.reset_timestamp then
    { u with daily_ads_watched := 0, daily_spins := 0,
             reset_timestamp := now + RESET_INTERVAL_MS,
             last_activity := some now }
  else
    { u with last_activity := some now }

/-- The fate of the fire-and-forget commission `fetch` a reward handler
dispatches: delivered to `handleCommission`, or lost to a network failure
(the handler only logs it, lines 393-397). -/
inductive DispatchFate
  | delivered
  | lost
deriving DecidableEq

/-- Settlement of a dispatched commission message: nothing was dispatched, the
call was lost, or `handleCommission` ran (at some later time `settleNow`). -/
def settleCommission (settleNow : Nat) (fate : DispatchFate)
    (msg : Option CommissionMsg) (st : State) : State :=
  match msg, fate with
  | none, _ => st
  | some _, .lost => st
  | some m, .delivered => (handleCommission settleNow m.referral_id m.user_id m.amount st).2

end P0

namespace Api

/-- Server constant `REWARD_PER_AD` (src/api/index.js line 19). -/
def REWARD_PER_AD : ℚ := 3

/-- Server constant `REFERRAL_COMMISSION_RATE = 0.05` (line 20). -/
def REFERRAL_COMMISSION_RATE : ℚ := 5 / 100

/-- Server constant `DAILY_MAX_ADS` (line 21).  The quota check inside
`handleWatchAd` does not reference it: lines 449 and 464 name an undefined
`DAILY_MAX` instead. -/
def DAILY_MAX_ADS : Nat := 100

/-- Server constant `DAILY_MAX_SPINS` (line 22). -/
def DAILY_MAX_SPINS : Nat := 15

/-- Server constant `RESET_INTERVAL_MS` (line 23): six hours, compared against
`Int` millisecond differences. -/
def RESET_INTERVAL_MS : Int := 6 * 60 * 60 * 1000

/-- Server constant `MIN_TIME_BETWEEN_ACTIONS_MS` (line 24). -/
def MIN_TIME_BETWEEN_ACTIONS_MS : Int := 3000

/-- Server constant `ACTION_ID_EXPIRY_MS` (line 25). -/
def ACTION_ID_EXPIRY_MS : Int := 60000

/-- Server constant `SPIN_SECTORS` (line 26) of this revision. -/
def SPIN_SECTORS : List ℚ := [5, 10, 15, 20, 5, 10, 15, 20]

/-- The spin payload `calculateRandomSpinPrize` produces (lines 38-42) and
`handlePreSpin` stores in the token (line 531). -/
structure SpinPayload where
  prize : ℚ
  prizeIndex : Nat
deriving DecidableEq

/-- A row of the `action_tokens` table (written by `handlePreSpin`,
lines 516-531). -/
structure Token where
  user_id : Int
  action_type : String
  created_at : Nat
  payload : Option SpinPayload
deriving DecidableEq

/-- The columns of a `users` row that the handlers of this revision read or
write (registration payload, lines 378-389). -/
structure User where
  balance : ℚ
  ads_watched_today : Nat
  spins_today : Nat
  ref_by : Option Int
  is_banned : Bool
  last_activity : Option Nat
  ads_limit_reached_at : Option Nat
  spins_limit_reached_at : Option Nat
deriving DecidableEq

/-- A row of the `commission_history` table written by `processCommission`
(line 304). -/
structure CommissionHistoryEntry where
  referrer_id : Int
  referee_id : Int
  amount : ℚ
  source_reward : ℚ
deriving DecidableEq

/-- The mutable state the modelled handlers of this revision touch. -/
structure State where
  action_tokens : List (String × Token)
  users : List (Int × User)
  commission_history : List CommissionHistoryEntry
deriving DecidableEq

/-- Responses produced by the modelled handlers of this revision.  The
rate-limited response carries the remaining wait in milliseconds; the source
splices its rounded-up seconds into the message text (lines 210-215). -/
inductive Resp
  | adOk (new_balance reward : ℚ) (ads_watched_today : Nat)
  | spinOk (new_balance prize : ℚ) (spins_today : Nat)
  | preSpinOk (action_id : String) (payload : Option SpinPayload)
  | rateLimited (remainingTime : Int)
  | err (message : String) (status : Nat)
deriving DecidableEq

/-- Result of a `supabaseFetch` GET as the callers see it: a list of rows, or
a thrown error. -/
inductive StoreRead (α : Type)
  | ok (rows : List α)
  | err (message : String)
deriving DecidableEq

/-- The single column `checkRateLimit` selects. -/
structure RateRow where
  last_activity : Option Nat
deriving DecidableEq

/-- Outcome of `checkRateLimit`: allowed, or rejected with the remaining
wait in milliseconds. -/
inductive RateLimitOutcome
  | allowed
  | limited (remainingTime : Int)
deriving DecidableEq

/-- `checkRateLimit` (src/api/index.js lines 196-223).  An empty result set
returns `ok: true` (line 200); a missing `last_activity` counts as 0
(line 205); a thrown store error is caught and also returns `ok: true`
(lines 219-222). -/
def checkRateLimit (now : Nat) (read : StoreRead RateRow) : RateLimitOutcome :=
  match read with
  | .err _ => .allowed
  | .ok [] => .allowed
  | .ok (u :: _) =>
    let lastActivity : Int := match u.last_activity with
      | some t => (t : Int)
      | none => 0
    let timeElapsed := (now : Int) - lastActivity
    if timeElapsed < MIN_TIME_BETWEEN_ACTIONS_MS then
      .limited (MIN_TIME_BETWEEN_ACTIONS_MS - timeElapsed)
    else .allowed

/-- `resetDailyLimitsIfExpired` (src/api/index.js lines 147-191), as the
transformation it performs on the fetched user row.  Each quota is reset, and
its lockout timestamp cleared, only when the timestamp is set, the counter is
at or above its maximum, and more than `RESET_INTERVAL_MS` has elapsed since
the timestamp. -/
def resetDailyLimitsIfExpired (now : Nat) (u : User) : User :=
  let u1 :=
    match u.ads_limit_reached_at with
    | some t =>
      if u.ads_watched_today ≥ DAILY_MAX_ADS ∧
          (now : Int) - (t : Int) > RESET_INTERVAL_MS then
        { u with ads_watched_today := 0, ads_limit_reached_at := none }
      else u
    | none => u
  match u1.spins_limit_reached_at with
  | some t =>
    if u1.spins_today ≥ DAILY_MAX_SPINS ∧
        (now : Int) - (t : Int) > RESET_INTERVAL_MS then
      { u1 with spins_today := 0, spins_limit_reached_at := none }
    else u1
  | none => u1

/-- Result of `processCommission` (lines 280-311): applied with the new
referrer balance, or aborted with an error string. -/
inductive CommissionResult
  | applied (new_referrer_balance : ℚ)
  | failed (error : String)
deriving DecidableEq

/-- `processCommission` (src/api/index.js lines 280-311).  The commission is
`sourceReward * REFERRAL_COMMISSION_RATE`; a product below `0.000001` aborts,
as does a missing or banned referrer; otherwise the fractional amount is
added to the referrer balance and appended to `commission_history`. -/
def processCommission (users : List (Int × User))
    (hist : List CommissionHistoryEntry) (referrerId refereeId : Int)
    (sourceReward : ℚ) :
    CommissionResult × List (Int × User) × List CommissionHistoryEntry :=
  let commissionAmount := sourceReward * REFERRAL_COMMISSION_RATE
  if commissionAmount < 1 / 1000000 then
    (.failed "Commission amount is effectively zero.", users, hist)
  else
    match tblGet users referrerId with
    | none =>
      (.failed "Referrer not found or banned, commission aborted.", users, hist)
    | some r =>
      if r.is_banned then
        (.failed "Referrer not found or banned, commission aborted.", users, hist)
      else
        let newBalance := r.balance + commissionAmount
        (.applied newBalance,
          tblUpd users referrerId (fun u => { u with balance := newBalance }),
          hist ++ [CommissionHistoryEntry.mk referrerId refereeId commissionAmount sourceReward])

/-- `handleWatchAd` (src/api/index.js lines 412-484).  The token is validated
(mismatch leaves the table untouched; an expired matching token is deleted),
then deleted; the user is fetched and the ban checked.  The quota check at
line 449 then reads the undefined identifier `DAILY_MAX`: the resulting
`ReferenceError` is caught by the handler and surfaced as the status-500
response built from `error.message` (lines 480-483), so neither the balance
update nor the commission dispatch (lines 453-478) is ever reached. -/
def handleWatchAd (now : Nat) (user_id : Int) (action_id : Option String)
    (st : State) : Resp × State :=
  match action_id with
  | none => (.err "Missing Action ID." 400, st)
  | some aid =>
    match tblGet st.action_tokens aid with
    | none => (.err "Invalid or expired Action ID for this action type." 403, st)
    | some tok =>
      if tok.user_id ≠ user_id ∨ tok.action_type ≠ "watchAd" then
        (.err "Invalid or expired Action ID for this action type." 403, st)
      else if (now : Int) - (tok.created_at : Int) > ACTION_ID_EXPIRY_MS then
        (.err "Action ID expired." 403,
          { st with action_tokens := tblDel st.action_tokens aid })
      else
        let st1 : State := { st with action_tokens := tblDel st.action_tokens aid }
        match tblGet st1.users user_id with
        | none => (.err "User not found." 404, st1)
        | some user =>
          if user.is_banned then (.err "User is banned." 403, st1)
          else
            (.err "Failed to process ad watch: DAILY_MAX is not defined" 500, st1)

/-- Result of `handleSpinResult`: the response, the state after the handler
body, and the `(referrerId, prize)` of the fire-and-forget
`processCommission` call (lines 609-613), if one was started. -/
structure SpinOut where
  resp : Resp
  state : State
  dispatched : Option (Int × ℚ)
deriving DecidableEq

/-- `handleSpinResult` (src/api/index.js lines 548-622).  The token must
exist, belong to the caller, have type `spin` and carry a payload (one
combined check at line 559); an expired token is deleted.  The credited prize
is the payload stored in the token; the client supplies nothing but
`user_id` and `action_id`. -/
def handleSpinResult (now : Nat) (user_id : Int) (action_id : Option String)
    (st : State) : SpinOut :=
  match action_id with
  | none => ⟨.err "Missing Action ID." 400, st, none⟩
  | some aid =>
    match tblGet st.action_tokens aid with
    | none => ⟨.err "Invalid or expired Action ID for spin." 403, st, none⟩
    | some tok =>
      match tok.payload with
      | none => ⟨.err "Invalid or expired Action ID for spin." 403, st, none⟩
      | some p =>
        if tok.user_id ≠ user_id ∨ tok.action_type ≠ "spin" then
          ⟨.err "Invalid or expired Action ID for spin." 403, st, none⟩
        else if (now : Int) - (tok.created_at : Int) > ACTION_ID_EXPIRY_MS then
          ⟨.err "Action ID expired." 403,
            { st with action_tokens := tblDel st.action_tokens aid }, none⟩
        else
          let st1 : State := { st with action_tokens := tblDel st.action_tokens aid }
          match tblGet st1.users user_id with
          | none => ⟨.err "User not found." 404, st1, none⟩
          | some user =>
            if user.is_banned then ⟨.err "User is banned." 403, st1, none⟩
            else if user.spins_today ≥ DAILY_MAX_SPINS then
              ⟨.err "Daily spin limit reached." 403, st1, none⟩
            else
              let newSpinCount := user.spins_today + 1
              let newBalance := user.balance + p.prize
              let users := tblUpd st1.users user_id (fun u =>
                let u1 := { u with balance := newBalance,
                                   spins_today := newSpinCount,
                                   last_activity := some now }
                if newSpinCount = DAILY_MAX_SPINS then
                  { u1 with spins_limit_reached_at := some now }
                else u1)
              ⟨.spinOk newBalance p.prize newSpinCount, { st1 with users := users },
                user.ref_by.map (fun rid => (rid, p.prize))⟩

/-- `handlePreSpin` (src/api/index.js lines 504-543).  After the rate-limit
gate, a token is inserted for the requested action type; for type `spin` the
server draws the prize (`rand` injects the random outcome) and patches it
into the token before answering.  `newId` injects the random token id. -/
def handlePreSpin (now : Nat) (user_id : Int) (action_type : String)
    (newId : String) (rand : SpinPayload) (rateRead : StoreRead RateRow)
    (st : State) : Resp × State :=
  match checkRateLimit now rateRead with
  | .limited r => (.rateLimited r, st)
  | .allowed =>
    let tok : Token := ⟨user_id, action_type, now, none⟩
    let st1 : State := { st with action_tokens := st.action_tokens ++ [(newId, tok)] }
    if action_type = "spin" then
      let patched := tblUpd st1.action_tokens newId (fun t => { t with payload := some rand })
      let st2 : State := { st1 with action_tokens := patched }
      (.preSpinOk newId (some rand), st2)
    else
      (.preSpinOk newId none, st1)

/-- `handleCommission` (src/api/index.js lines 490-498): a direct commission
request is always rejected with status 403 and touches nothing. -/
def handleCommission (st : State) : Resp × State :=
  (.err "Direct commission claims are not allowed." 403, st)

end Api

/-- The request-body fields the main handlers inspect before routing:
`type`, `initData` and `user_id` (`none` models an absent field). -/
structure ReqBody where
  type : String
  initData : Option String
  user_id : Option Int
deriving DecidableEq

/-- JavaScript truthiness of an optional string field: absent or empty is
falsy. -/
def strFalsy : Option String → Bool
  | none => true
  | some s => s == ""

/-- JavaScript truthiness of an optional numeric field: absent or zero is
falsy. -/
def intFalsy : Option Int → Bool
  | none => true
  | some n => n == 0

/-- Routing decision of a main handler: rejected by one of the guard checks,
or dispatched to the handler for the given request type. -/
inductive Dispatch
  | rejected (message : String) (status : Nat)
  | toHandler (handlerType : String)
deriving DecidableEq

namespace Api

/-- The guard checks and `switch` of the main `handler` (src/api/index.js
lines 838-885).  The `initData` security check and the `user_id` requirement
are both skipped when `body.type` is `commission` (lines 843 and 847);
`initDataValid` injects the outcome of the HMAC check `validateInitData`. -/
def routeRequest (b : ReqBody) (initDataValid : Bool) : Dispatch :=
  if b.type = "" then
    .rejected "Missing type field in the request body." 400
  else if b.type ≠ "commission" ∧ (strFalsy b.initData ∨ initDataValid = false) then
    .rejected "Invalid or expired initData. Security check failed." 401
  else if intFalsy b.user_id ∧ b.type ≠ "commission" then
    .rejected "Missing user_id in the request body." 400
  else if b.type ∈ ["getUserData", "register", "watchAd", "commission", "preSpin",
      "spinResult", "withdraw", "getTasks", "claimTask"] then
    .toHandler b.type
  else
    .rejected "Invalid request type." 400

end Api

namespace P0

/-- The guard checks and `switch` of the main exported handler
(src/unnamed/part_000 lines 740-819).  As in the other revision, both the
`initData` check and the `user_id` requirement are skipped for `commission`
(lines 779 and 783). -/
def routeRequest (b : ReqBody) (initDataValid : Bool) : Dispatch :=
  if b.type = "" then
    .rejected "Missing type field in the request body, or body is empty." 400
  else if b.type ≠ "commission" ∧ (strFalsy b.initData ∨ initDataValid = false) then
    .rejected "Invalid or expired initData. Security check failed." 401
  else if intFalsy b.user_id ∧ b.type ≠ "commission" then
    .rejected "Missing user_id in the request body." 400
  else if b.type ∈ ["getUserData", "requestActionId", "watchAd", "commission",
      "preSpin", "spinResult", "withdraw", "completeTask", "getTasks"] then
    .toHandler b.type
  else
    .rejected "Unknown request type." 400

/-- Recognizer for a RateLimited (HTTP 429) response of this revision. -/
def isRateLimited : Resp → Bool
  | .err _ 429 => true
  | _ => false

/-- A baseline `users` row for concrete scenarios: zero balance, no referrer,
not banned, fresh counters, activity at the epoch, reset timer far away. -/
def demoUser : User :=
  ⟨0, none, false, 0, 0, some 0, none, none, 1000000000⟩

/-- Concrete state for the end-to-end watch-ad scenario: one valid `watchAd`
token issued at t=9000 for user 1. -/
def adScenario : State :=
  ⟨[("tok1", ⟨1, "watchAd", 9000⟩)], [(1, demoUser)], []⟩

/-- Concrete state for the spin scenario: one valid `spinResult` token for
user 1. -/
def spinScenario : State :=
  ⟨[("spin1", ⟨1, "spinResult", 9000⟩)], [(1, demoUser)], []⟩

/-- Concrete state for the cooldown scenario: one valid `watchAd` token for
user 1, whose last activity at t=9500 is within the 3000 ms cooldown of
t=10000. -/
def cooldownScenario : State :=
  ⟨[("tok2", ⟨1, "watchAd", 9000⟩)], [(1, { demoUser with last_activity := some 9500 })], []⟩

/-- Concrete state for the referral scenario: user 1 was referred by user 2,
and holds a valid `watchAd` token. -/
def refScenario : State :=
  ⟨[("tokc", ⟨1, "watchAd", 9000⟩)],
   [(1, { demoUser with referral_id := some 2 }), (2, demoUser)], []⟩

/-- Concrete state for the commission scenarios: a referrer (user 2) with
balance 10. -/
def commissionScenario : State :=
  ⟨[], [(2, { demoUser with balance := 10 })], []⟩

end P0

namespace Api

/-- Recognizer for a RateLimited (HTTP 429) response of this revision. -/
def isRateLimited : Resp → Bool
  | .rateLimited _ => true
  | .err _ 429 => true
  | _ => false

/-- A baseline `users` row for concrete scenarios: zero balance, fresh
counters, no referrer, not banned, activity at the epoch, no lockouts. -/
def demoUser : User :=
  ⟨0, 0, 0, none, false, some 0, none, none⟩

/-- Concrete state mirroring `P0.adScenario` in this revision: one valid
`watchAd` token issued at t=9000 for user 1. -/
def adScenario : State :=
  ⟨[("tok1", ⟨1, "watchAd", 9000, none⟩)], [(1, demoUser)], []⟩

/-- Concrete state for the spin scenario of this revision: one valid `spin`
token for user 1 carrying the server-chosen payload (prize 10, sector 1). -/
def spinScenario : State :=
  ⟨[("sp1", ⟨1, "spin", 9000, some ⟨10, 1⟩⟩)], [(1, demoUser)], []⟩

end Api

/-! Association-list table lemmas shared by the claim theorems. -/

theorem tblGet_tblDel_self {κ α : Type} [DecidableEq κ] (t : List (κ × α)) (k : κ) :
    tblGet (tblDel t k) k = none := by
  induction t with
  | nil => rfl
  | cons p rest ih =>
    by_cases h : p.1 = k
    · simpa [tblDel, h] using ih
    · simp [tblDel, tblGet, h, ih]

theorem tblGet_tblDel_none {κ α : Type} [DecidableEq κ] (t : List (κ × α)) (k k' : κ)
    (h : tblGet t k = none) : tblGet (tblDel t k') k = none := by
  induction t with
  | nil => rfl
  | cons p rest ih =>
    by_cases hk : p.1 = k
    · simp [tblGet, hk] at h
    · rw [tblGet, if_neg hk] at h
      by_cases hk' : p.1 = k'
      · simpa [tblDel, hk'] using ih h
      · simp [tblDel, tblGet, hk, hk', ih h]

theorem tblGet_tblUpd_self {κ α : Type} [DecidableEq κ] (t : List (κ × α)) (k : κ)
    (f : α → α) (r : α) (h : tblGet t k = some r) :
    tblGet (tblUpd t k f) k = some (f r) := by
  induction t with
  | nil => simp [tblGet] at h
  | cons p rest ih =>
    by_cases hk : p.1 = k
    · rw [tblGet, if_pos hk] at h
      simp only [Option.some.injEq] at h
      simp [tblUpd, tblGet, hk, h]
    · rw [tblGet, if_neg hk] at h
      simp [tblUpd, tblGet, hk, ih h]

theorem tblGet_tblUpd_ne {κ α : Type} [DecidableEq κ] (t : List (κ × α)) (k k' : κ)
    (f : α → α) (h : k' ≠ k) : tblGet (tblUpd t k f) k' = tblGet t k' := by
  induction t with
  | nil => rfl
  | cons p rest ih =>
    by_cases hk : p.1 = k
    · have hkk : ¬ k = k' := fun hh => h hh.symm
      simp [tblUpd, tblGet, hk, hkk, ih]
    · simp [tblUpd, tblGet, hk, ih]

theorem tblGet_tblUpd_append {κ α : Type} [DecidableEq κ] (t : List (κ × α)) (k : κ)
    (v : α) (f : α → α) (h : tblGet t k = none) :
    tblGet (tblUpd (t ++ [(k, v)]) k f) k = some (f v) := by
  induction t with
  | nil => simp [tblUpd, tblGet]
  | cons p rest ih =>
    by_cases hk : p.1 = k
    · simp [tblGet, hk] at h
    · rw [tblGet, if_neg hk] at h
      simp [tblUpd, tblGet, hk, ih h]

/-! Facts about `consumeActionId` shared by several claim theorems. -/

/-- A consume against a registry that does not hold the id fails and leaves
the registry untouched. -/
theorem consume_absent (s : List (String × P0.TokenRecord)) (id : String)
    (uid : Int) (ty : String) (now : Nat) (h : tblGet s id = none) :
    P0.consumeActionId s id uid ty now = (false, s) := by
  unfold P0.consumeActionId
  rw [h]

/-- A successful consume removes the id from the registry. -/
theorem consume_success_deletes (s : List (String × P0.TokenRecord)) (id : String)
    (uid : Int) (ty : String) (now : Nat)
    (h : (P0.consumeActionId s id uid ty now).1 = true) :
    tblGet (P0.consumeActionId s id uid ty now).2 id = none := by
  unfold P0.consumeActionId at h ⊢
  cases hg : tblGet s id with
  | none => rw [hg] at h; simp at h
  | some r =>
    rw [hg] at h
    by_cases h1 : r.user_id ≠ uid ∨ r.type ≠ ty
    · simp [h1] at h
    · by_cases h2 : (now : Int) - (r.timestamp : Int) > P0.ACTION_ID_EXPIRY_MS
      · simp [h1, h2] at h
      · simp [h1, h2, tblGet_tblDel_self]

/-- C1: end-to-end watch-ad scenario.  In the `part_000` revision a user with
balance 0, ad count 0, not banned, outside the cooldown, presenting a valid
unexpired `watchAd` token, succeeds: the balance becomes 3, the count becomes
1, the token is gone and a replay is rejected as invalid-or-expired.  In the
`src/api/index.js` revision the same request instead dies on the undefined
identifier `DAILY_MAX` (line 449): the handler answers status 500, the token
has already been deleted, and the user row is untouched — the claimed success
never happens in that revision. -/
theorem watch_ad_end_to_end_scenario :
    (P0.handleWatchAd 10000 1 "tok1" P0.adScenario).resp = .adOk 3 1 3
    ∧ tblGet (P0.handleWatchAd 10000 1 "tok1" P0.adScenario).state.users 1
        = some { P0.demoUser with balance := 3, daily_ads_watched := 1, last_ad_watch := some 10000, last_activity := some 10000 }
    ∧ tblGet (P0.handleWatchAd 10000 1 "tok1" P0.adScenario).state.tokens "tok1" = none
    ∧ (P0.handleWatchAd 10000 1 "tok1" (P0.handleWatchAd 10000 1 "tok1" P0.adScenario).state).resp
        = .err "Invalid or expired action ID. Please try again." 401
    ∧ (Api.handleWatchAd 10000 1 (some "tok1") Api.adScenario).1
        = .err "Failed to process ad watch: DAILY_MAX is not defined" 500
    ∧ tblGet (Api.handleWatchAd 10000 1 (some "tok1") Api.adScenario).2.users 1
        = some Api.demoUser
    ∧ tblGet (Api.handleWatchAd 10000 1 (some "tok1") Api.adScenario).2.action_tokens "tok1"
        = none := by
  norm_num +decide [P0.handleWatchAd, P0.consumeActionId, P0.isCooldownActive,
    P0.adScenario, P0.demoUser, P0.ACTION_ID_EXPIRY_MS, P0.MIN_TIME_BETWEEN_ACTIONS_MS,
    P0.DAILY_MAX_ADS, P0.REWARD_PER_AD, tblGet, tblDel, tblUpd,
    Api.handleWatchAd, Api.adScenario, Api.demoUser, Api.ACTION_ID_EXPIRY_MS]

/-- C9: the rate limiter fails open.  When the store read for the user's
`last_activity` throws, or returns no row, `checkRateLimit` answers
`ok: true`, so the request proceeds with no cooldown enforcement. -/
theorem rate_limit_fails_open :
    ∀ (now : Nat) (msg : String),
      Api.checkRateLimit now (Api.StoreRead.err msg) = .allowed ∧
      Api.checkRateLimit now (Api.StoreRead.ok []) = .allowed := by
  intro now msg
  exact ⟨rfl, rfl⟩

/-- C2: a token is consumable at most once.  A successful consume removes the
id from the registry; a consume against a registry without the id fails for
every supplied user id, action kind and time, and no consume ever inserts an
id; at the handler level, a request whose token id is absent is rejected with
the invalid-or-expired-token response. -/
theorem token_single_use :
    (∀ (s : List (String × P0.TokenRecord)) (id : String) (uid : Int) (ty : String) (now : Nat),
      (P0.consumeActionId s id uid ty now).1 = true →
      tblGet (P0.consumeActionId s id uid ty now).2 id = none)
    ∧ (∀ (s : List (String × P0.TokenRecord)) (id : String) (uid : Int) (ty : String) (now : Nat),
      tblGet s id = none → (P0.consumeActionId s id uid ty now).1 = false)
    ∧ (∀ (s : List (String × P0.TokenRecord)) (id id₂ : String) (uid : Int) (ty : String) (now : Nat),
      tblGet s id₂ = none → tblGet (P0.consumeActionId s id uid ty now).2 id₂ = none)
    ∧ (∀ (now : Nat) (uid : Int) (id : String) (st : P0.State),
      tblGet st.tokens id = none →
      (P0.handleWatchAd now uid id st).resp
        = .err "Invalid or expired action ID. Please try again." 401) := by
  refine ⟨consume_success_deletes, ?_, ?_, ?_⟩
  · intro s id uid ty now h
    rw [consume_absent s id uid ty now h]
  · intro s id id₂ uid ty now h
    unfold P0.consumeActionId
    cases hg : tblGet s id with
    | none => exact h
    | some r =>
      by_cases h1 : r.user_id ≠ uid ∨ r.type ≠ ty
      · simp [h1, h]
      · by_cases h2 : (now : Int) - (r.timestamp : Int) > P0.ACTION_ID_EXPIRY_MS
        · simp [h1, h2, tblGet_tblDel_none s id₂ id h]
        · simp [h1, h2, tblGet_tblDel_none s id₂ id h]
  · intro now uid id st h
    unfold P0.handleWatchAd
    rw [consume_absent st.tokens id uid "watchAd" now h]
    simp

/-- C2 witness: consuming the valid token of the concrete watch-ad scenario
succeeds and removes it from the registry. -/
theorem token_single_use_witness :
    tblGet (P0.consumeActionId P0.adScenario.tokens "tok1" 1 "watchAd" 10000).2 "tok1"
      = none :=
  token_single_use.1 P0.adScenario.tokens "tok1" 1 "watchAd" 10000 (by decide)

/-- C6: on a failed consume, `consumeActionId` deletes the looked-up entry
only when the owning user id and action kind both match and the entry is
expired; an absent id or a mismatched user id or kind leaves the registry
untouched, even when the entry found is expired.  In the `src/api/index.js`
revision `handleWatchAd` behaves the same way: a mismatched token is rejected
without any deletion. -/
theorem consume_failure_deletion :
    (∀ (s : List (String × P0.TokenRecord)) (id : String) (uid : Int) (ty : String) (now : Nat),
      tblGet s id = none → P0.consumeActionId s id uid ty now = (false, s))
    ∧ (∀ (s : List (String × P0.TokenRecord)) (id : String) (uid : Int) (ty : String) (now : Nat)
        (r : P0.TokenRecord), tblGet s id = some r → (r.user_id ≠ uid ∨ r.type ≠ ty) →
      P0.consumeActionId s id uid ty now = (false, s))
    ∧ (∀ (s : List (String × P0.TokenRecord)) (id : String) (uid : Int) (ty : String) (now : Nat)
        (r : P0.TokenRecord), tblGet s id = some r → r.user_id = uid → r.type = ty →
      (now : Int) - (r.timestamp : Int) > P0.ACTION_ID_EXPIRY_MS →
      P0.consumeActionId s id uid ty now = (false, tblDel s id) ∧
      tblGet (tblDel s id) id = none)
    ∧ (∀ (now : Nat) (uid : Int) (aid : String) (tok : Api.Token) (st : Api.State),
      tblGet st.action_tokens aid = some tok →
      (tok.user_id ≠ uid ∨ tok.action_type ≠ "watchAd") →
      Api.handleWatchAd now uid (some aid) st
        = (.err "Invalid or expired Action ID for this action type." 403, st)) := by
  refine ⟨consume_absent, ?_, ?_, ?_⟩
  · intro s id uid ty now r hg h1
    unfold P0.consumeActionId
    rw [hg]
    simp [h1]
  · intro s id uid ty now r hg h1 h2 h3
    unfold P0.consumeActionId
    rw [hg]
    simp [h1, h2, h3, tblGet_tblDel_self]
  · intro now uid aid tok st hg h1
    unfold Api.handleWatchAd
    simp [hg, h1]

/-- C6 witness: a matching consume of an expired entry fails and deletes the
entry. -/
theorem consume_failure_deletion_witness :
    P0.consumeActionId [("t", (⟨1, "watchAd", 0⟩ : P0.TokenRecord))] "t" 1 "watchAd" 100000
      = (false, tblDel [("t", (⟨1, "watchAd", 0⟩ : P0.TokenRecord))] "t") ∧
    tblGet (tblDel [("t", (⟨1, "watchAd", 0⟩ : P0.TokenRecord))] "t") "t" = none :=
  consume_failure_deletion.2.2.1 [("t", ⟨1, "watchAd", 0⟩)] "t" 1 "watchAd" 100000
    ⟨1, "watchAd", 0⟩ (by decide) rfl rfl (by decide)

/-- C6 counterexample: a consume with the wrong user id against an entry that
is already expired (issued at t=0, attempted at t=100000, window 60000 ms)
fails but leaves the expired entry in the registry — the claimed deletion on
mismatch-over-an-expired-entry does not happen. -/
theorem expired_mismatch_not_deleted_cex :
    P0.consumeActionId [("t", (⟨1, "watchAd", 0⟩ : P0.TokenRecord))] "t" 2 "watchAd" 100000
      = (false, [("t", ⟨1, "watchAd", 0⟩)]) ∧
    (100000 : Int) - 0 > P0.ACTION_ID_EXPIRY_MS ∧
    tblGet [("t", (⟨1, "watchAd", 0⟩ : P0.TokenRecord))] "t" = some ⟨1, "watchAd", 0⟩ := by
  decide

/-- C3 (amended): in the `src/api/index.js` revision,
`resetDailyLimitsIfExpired` never touches a counter strictly below its
maximum, and whenever it does change a counter it zeroes it, the counter was
at or above its maximum, and more than the 6-hour interval had elapsed since
the recorded lockout timestamp.  In the `part_000` revision, by contrast, the
`handleGetUserData` refresh zeroes both counters whenever the rolling
`reset_timestamp` has passed, with no condition on the counters. -/
theorem quota_reset_limit_based :
    (∀ (now : Nat) (u : Api.User), u.ads_watched_today < Api.DAILY_MAX_ADS →
      (Api.resetDailyLimitsIfExpired now u).ads_watched_today = u.ads_watched_today ∧
      (Api.resetDailyLimitsIfExpired now u).ads_limit_reached_at = u.ads_limit_reached_at)
    ∧ (∀ (now : Nat) (u : Api.User), u.spins_today < Api.DAILY_MAX_SPINS →
      (Api.resetDailyLimitsIfExpired now u).spins_today = u.spins_today ∧
      (Api.resetDailyLimitsIfExpired now u).spins_limit_reached_at = u.spins_limit_reached_at)
    ∧ (∀ (now : Nat) (u : Api.User),
      (Api.resetDailyLimitsIfExpired now u).ads_watched_today ≠ u.ads_watched_today →
      (Api.resetDailyLimitsIfExpired now u).ads_watched_today = 0 ∧
      u.ads_watched_today ≥ Api.DAILY_MAX_ADS ∧
      ∃ t, u.ads_limit_reached_at = some t ∧ (now : Int) - t > Api.RESET_INTERVAL_MS)
    ∧ (∀ (now : Nat) (u : Api.User),
      (Api.resetDailyLimitsIfExpired now u).spins_today ≠ u.spins_today →
      (Api.resetDailyLimitsIfExpired now u).spins_today = 0 ∧
      u.spins_today ≥ Api.DAILY_MAX_SPINS ∧
      ∃ t, u.spins_limit_reached_at = some t ∧ (now : Int) - t > Api.RESET_INTERVAL_MS)
    ∧ (∀ (now : Nat) (u : P0.User), u.reset_timestamp ≤ now →
      (P0.getUserDataRefresh now u).daily_ads_watched = 0 ∧
      (P0.getUserDataRefresh now u).daily_spins = 0) := by
  refine ⟨?_, ?_, ?_, ?_, ?_⟩
  · rintro now ⟨bal, ads, spins, refby, ban, la, alr, slr⟩ h
    have h' : ¬ Api.DAILY_MAX_ADS ≤ ads := Nat.not_le.mpr h
    cases alr <;> cases slr <;>
      simp [Api.resetDailyLimitsIfExpired, h'] <;> split_ifs <;> simp
  · rintro now ⟨bal, ads, spins, refby, ban, la, alr, slr⟩ h
    have h' : ¬ Api.DAILY_MAX_SPINS ≤ spins := Nat.not_le.mpr h
    cases alr <;> cases slr <;>
      simp [Api.resetDailyLimitsIfExpired, h'] <;> split_ifs <;> simp [h']
  · rintro now ⟨bal, ads, spins, refby, ban, la, alr, slr⟩ h
    cases alr with
    | none =>
      exfalso
      apply h
      cases slr <;> simp [Api.resetDailyLimitsIfExpired] <;> split_ifs <;> rfl
    | some t =>
      by_cases hq : Api.DAILY_MAX_ADS ≤ ads ∧ (now : Int) - (t : Int) > Api.RESET_INTERVAL_MS
      · refine ⟨?_, hq.1, t, rfl, hq.2⟩
        cases slr <;> simp [Api.resetDailyLimitsIfExpired, hq.1, hq.2] <;> split_ifs <;> rfl
      · exfalso
        apply h
        cases slr <;> simp [Api.resetDailyLimitsIfExpired, hq] <;> split_ifs <;> rfl
  · rintro now ⟨bal, ads, spins, refby, ban, la, alr, slr⟩ h
    cases slr with
    | none =>
      exfalso
      apply h
      cases alr <;> simp [Api.resetDailyLimitsIfExpired] <;> split_ifs <;> simp
    | some t =>
      by_cases hq : Api.DAILY_MAX_SPINS ≤ spins ∧ (now : Int) - (t : Int) > Api.RESET_INTERVAL_MS
      · refine ⟨?_, hq.1, t, rfl, hq.2⟩
        cases alr <;> simp [Api.resetDailyLimitsIfExpired, hq.1, hq.2] <;> split_ifs <;>
          simp [hq.1, hq.2]
      · exfalso
        apply h
        cases alr <;> simp [Api.resetDailyLimitsIfExpired, hq] <;> split_ifs <;> simp [hq]
  · intro now u h
    unfold P0.getUserDataRefresh
    rw [if_pos h]
    exact ⟨rfl, rfl⟩

/-- C3 witness: a user at 5 of 100 ads with no lockout timestamp keeps the
count across the reset check. -/
theorem quota_reset_limit_based_witness :
    (Api.resetDailyLimitsIfExpired 0 { Api.demoUser with ads_watched_today := 5 }).ads_watched_today = 5 ∧
    (Api.resetDailyLimitsIfExpired 0 { Api.demoUser with ads_watched_today := 5 }).ads_limit_reached_at = none :=
  quota_reset_limit_based.1 0 { Api.demoUser with ads_watched_today := 5 } (by decide)

/-- C3 counterexample: in the `part_000` revision, a user whose ad counter is
5 — strictly below the maximum of 100 — is reset to 0 by the
`handleGetUserData` refresh as soon as the rolling `reset_timestamp` has
passed, contradicting the claim that a counter below its maximum is never
reset. -/
theorem quota_reset_below_max_cex :
    ({ P0.demoUser with daily_ads_watched := 5, reset_timestamp := 0 } : P0.User).daily_ads_watched = 5 ∧
    5 < P0.DAILY_MAX_ADS ∧
    (P0.getUserDataRefresh 1 { P0.demoUser with daily_ads_watched := 5, reset_timestamp := 0 }).daily_ads_watched = 0 := by
  decide

/-- C4 (amended): in the `src/api/index.js` revision the spin outcome is the
server's.  `handlePreSpin` for a `spin` action stores the server-drawn
payload in the freshly issued token, and whenever `handleSpinResult` answers
success, the credited prize is exactly the `prize` of the payload stored in
the token it consumed — the request carries nothing but `user_id` and
`action_id`, so no other client-supplied field can influence it.  In the
`part_000` revision this fails: see the counterexample, where the client
selects the prize through `result_index`. -/
theorem spin_prize_from_token_payload :
    (∀ (now : Nat) (uid : Int) (newId : String) (rand : Api.SpinPayload) (st : Api.State),
      tblGet st.action_tokens newId = none →
      tblGet (Api.handlePreSpin now uid "spin" newId rand (Api.StoreRead.ok []) st).2.action_tokens newId
        = some ⟨uid, "spin", now, some rand⟩)
    ∧ (∀ (now : Nat) (uid : Int) (aid : Option String) (st : Api.State) (nb prize : ℚ) (cnt : Nat),
      (Api.handleSpinResult now uid aid st).resp = .spinOk nb prize cnt →
      ∃ (a : String) (tok : Api.Token) (p : Api.SpinPayload),
        aid = some a ∧ tblGet st.action_tokens a = some tok ∧
        tok.payload = some p ∧ prize = p.prize) := by
  constructor
  · intro now uid newId rand st h
    have hstep := tblGet_tblUpd_append st.action_tokens newId
      (⟨uid, "spin", now, none⟩ : Api.Token)
      (fun t => { t with payload := some rand }) h
    simpa [Api.handlePreSpin, Api.checkRateLimit] using hstep
  · intro now uid aid st nb prize cnt h
    cases aid with
    | none => simp [Api.handleSpinResult] at h
    | some a =>
      simp only [Api.handleSpinResult] at h
      rcases hg : tblGet st.action_tokens a with _ | tok
      · rw [hg] at h; simp at h
      · rw [hg] at h
        simp only [] at h
        rcases hp : tok.payload with _ | p
        · rw [hp] at h; simp at h
        · rw [hp] at h
          simp only [] at h
          refine ⟨a, tok, p, rfl, hg, hp, ?_⟩
          by_cases h1 : tok.user_id ≠ uid ∨ tok.action_type ≠ "spin"
          · rw [if_pos h1] at h; simp at h
          · rw [if_neg h1] at h
            by_cases h2 : (now : Int) - (tok.created_at : Int) > Api.ACTION_ID_EXPIRY_MS
            · rw [if_pos h2] at h; simp at h
            · rw [if_neg h2] at h
              rcases hu : tblGet st.users uid with _ | user
              · rw [hu] at h; simp at h
              · rw [hu] at h
                simp only [] at h
                by_cases hb : user.is_banned
                · simp [hb] at h
                · by_cases hq : user.spins_today ≥ Api.DAILY_MAX_SPINS
                  · simp [hb, hq] at h
                  · simp [hb, hq] at h
                    exact h.2.1.symm

/-- C4 witness: in the concrete spin scenario, a successful `spinResult` for
the token whose stored payload has prize 10 credits exactly 10. -/
theorem spin_prize_from_token_payload_witness :
    ∃ (a : String) (tok : Api.Token) (p : Api.SpinPayload),
      (some "sp1" : Option String) = some a ∧
      tblGet Api.spinScenario.action_tokens a = some tok ∧
      tok.payload = some p ∧ (10 : ℚ) = p.prize :=
  spin_prize_from_token_payload.2 10000 1 (some "sp1") Api.spinScenario 10 10 1
    (by norm_num +decide [Api.handleSpinResult, Api.spinScenario, Api.demoUser,
      Api.ACTION_ID_EXPIRY_MS, Api.DAILY_MAX_SPINS, tblGet, tblDel, tblUpd])

/-- C4 counterexample: in the `part_000` revision, two `spinResult` requests
from the same state, for the same user and the same token, differing only in
the client-supplied `result_index`, credit different prizes (5 versus 20) and
produce different balances — the client, not the server, chooses the spin
outcome there. -/
theorem spin_client_chooses_prize_cex :
    (P0.handleSpinResult 10000 1 "spin1" (some 0) P0.spinScenario).1 = .spinOk 5 1 5 ∧
    (P0.handleSpinResult 10000 1 "spin1" (some 3) P0.spinScenario).1 = .spinOk 20 1 20 ∧
    (5 : ℚ) ≠ 20 := by
  norm_num +decide [P0.handleSpinResult, P0.consumeActionId, P0.isCooldownActive,
    P0.spinScenario, P0.demoUser, P0.ACTION_ID_EXPIRY_MS, P0.MIN_TIME_BETWEEN_ACTIONS_MS,
    P0.DAILY_MAX_SPINS, P0.SPIN_SECTORS, tblGet, tblDel, tblUpd]

/-- C5 (amended): in the `part_000` revision the token is consumed before the
cooldown check, so whenever `handleWatchAd` answers RateLimited (status 429)
the caller's token has already been removed from the registry; in the
`src/api/index.js` revision `handleWatchAd` performs no cooldown check at all
and never answers RateLimited (the cooldown is checked only when a token is
issued). -/
theorem cooldown_rejection_after_consumption :
    (∀ (now : Nat) (uid : Int) (aid : String) (st : P0.State),
      P0.isRateLimited (P0.handleWatchAd now uid aid st).resp = true →
      tblGet (P0.handleWatchAd now uid aid st).state.tokens aid = none)
    ∧ (∀ (now : Nat) (uid : Int) (aid : Option String) (st : Api.State),
      Api.isRateLimited (Api.handleWatchAd now uid aid st).1 = false) := by
  constructor
  · intro now uid aid st h
    by_cases hc : (P0.consumeActionId st.tokens aid uid "watchAd" now).1 = false
    · exfalso
      unfold P0.handleWatchAd at h
      rw [if_pos hc] at h
      simp [P0.isRateLimited] at h
    · have hc' : (P0.consumeActionId st.tokens aid uid "watchAd" now).1 = true :=
        Bool.not_eq_false _ |>.mp hc
      have hdel := consume_success_deletes st.tokens aid uid "watchAd" now hc'
      unfold P0.handleWatchAd
      rw [if_neg (by simp [hc'])]
      rcases hu : tblGet st.users uid with _ | user
      · exact hdel
      · by_cases hb : user.is_banned
        · simp [hb, hdel]
        · by_cases hcool : P0.isCooldownActive now user.last_activity
          · simp [hb, hcool, hdel]
          · by_cases hq : user.daily_ads_watched ≥ P0.DAILY_MAX_ADS
            · simp [hb, hcool, hq, hdel]
            · simp [hb, hcool, hq, hdel]
  · intro now uid aid st
    cases aid with
    | none => simp [Api.handleWatchAd, Api.isRateLimited]
    | some a =>
      simp only [Api.handleWatchAd]
      rcases hg : tblGet st.action_tokens a with _ | tok
      · simp [Api.isRateLimited]
      · simp only []
        by_cases h1 : tok.user_id ≠ uid ∨ tok.action_type ≠ "watchAd"
        · simp [h1, Api.isRateLimited]
        · by_cases h2 : (now : Int) - (tok.created_at : Int) > Api.ACTION_ID_EXPIRY_MS
          · simp [h1, h2, Api.isRateLimited]
          · rcases hu : tblGet st.users uid with _ | user
            · simp [h1, h2, hu, Api.isRateLimited]
            · by_cases hb : user.is_banned
              · simp [h1, h2, hu, hb, Api.isRateLimited]
              · simp [h1, h2, hu, hb, Api.isRateLimited]

/-- C5 witness: in the concrete cooldown scenario the watch-ad request is
rejected RateLimited and the token is indeed gone. -/
theorem cooldown_rejection_after_consumption_witness :
    tblGet (P0.handleWatchAd 10000 1 "tok2" P0.cooldownScenario).state.tokens "tok2" = none :=
  cooldown_rejection_after_consumption.1 10000 1 "tok2" P0.cooldownScenario
    (by norm_num +decide [P0.handleWatchAd, P0.consumeActionId, P0.isCooldownActive,
      P0.cooldownScenario, P0.demoUser, P0.ACTION_ID_EXPIRY_MS,
      P0.MIN_TIME_BETWEEN_ACTIONS_MS, P0.DAILY_MAX_ADS, P0.isRateLimited,
      tblGet, tblDel, tblUpd])

/-- C5 counterexample: a `part_000` watch-ad request under an active cooldown
(last activity t=9500, request t=10000) is rejected with status 429, yet its
token has been consumed: the token is no longer in the registry and a retry
with it fails as invalid-or-expired — contradicting the claim that a
cooldown rejection never consumes the token. -/
theorem cooldown_rejection_consumed_token_cex :
    (P0.handleWatchAd 10000 1 "tok2" P0.cooldownScenario).resp
      = .err "Too many requests. Please wait a moment." 429 ∧
    tblGet (P0.handleWatchAd 10000 1 "tok2" P0.cooldownScenario).state.tokens "tok2" = none ∧
    (P0.handleWatchAd 10000 1 "tok2" (P0.handleWatchAd 10000 1 "tok2" P0.cooldownScenario).state).resp
      = .err "Invalid or expired action ID. Please try again." 401 := by
  norm_num +decide [P0.handleWatchAd, P0.consumeActionId, P0.isCooldownActive,
    P0.cooldownScenario, P0.demoUser, P0.ACTION_ID_EXPIRY_MS,
    P0.MIN_TIME_BETWEEN_ACTIONS_MS, P0.DAILY_MAX_ADS, tblGet, tblDel, tblUpd]

/-- C7 (amended): in the `src/api/index.js` revision, `processCommission` for
a referee reward of 3 units and a live referrer credits exactly
3 × 0.05 = 0.15, and the fractional amount is preserved both in the balance
update and in the `commission_history` audit row.  In the `part_000`
revision, `handleCommission` floors the transferred amount
(`Math.floor(amount)`), so the referrer of a 3-unit reward is credited 0,
not 0.15. -/
theorem commission_rate_application :
    (∀ (users : List (Int × Api.User)) (hist : List Api.CommissionHistoryEntry)
        (rid refereeId : Int) (r : Api.User),
      tblGet users rid = some r → r.is_banned = false →
      Api.processCommission users hist rid refereeId 3
        = (.applied (r.balance + 15 / 100),
           tblUpd users rid (fun u => { u with balance := r.balance + 15 / 100 }),
           hist ++ [⟨rid, refereeId, 15 / 100, 3⟩]))
    ∧ (∀ (now : Nat) (rid uid : Int) (st : P0.State) (r : P0.User),
      tblGet st.users rid = some r → r.is_banned = false →
      (P0.handleCommission now rid uid (3 * P0.REFERRAL_COMMISSION_RATE) st).1
        = .commissionOk 0 rid ∧
      tblGet (P0.handleCommission now rid uid (3 * P0.REFERRAL_COMMISSION_RATE) st).2.users rid
        = some { r with last_activity := some now }) := by
  have hf : ((⌊(3 * P0.REFERRAL_COMMISSION_RATE : ℚ)⌋ : ℤ) : ℚ) = 0 := by
    norm_num [P0.REFERRAL_COMMISSION_RATE]
  constructor
  · intro users hist rid refereeId r hget hban
    simp only [Api.processCommission, hget, hban]
    norm_num [Api.REFERRAL_COMMISSION_RATE]
  · intro now rid uid st r hget hban
    unfold P0.handleCommission
    rw [hget]
    simp only []
    rw [if_neg (by simp [hban])]
    constructor
    · simp [hf]
    · rw [tblGet_tblUpd_self st.users rid _ r hget]
      simp [hf]

/-- C7 witness: a concrete referrer with balance 0 is credited exactly 0.15
for a referee reward of 3, with the fraction recorded in the audit row. -/
theorem commission_rate_application_witness :
    Api.processCommission [(2, Api.demoUser)] [] 2 1 3
      = (.applied (Api.demoUser.balance + 15 / 100),
         tblUpd [(2, Api.demoUser)] 2 (fun u => { u with balance := Api.demoUser.balance + 15 / 100 }),
         [] ++ [⟨2, 1, 15 / 100, 3⟩]) :=
  commission_rate_application.1 [(2, Api.demoUser)] [] 2 1 Api.demoUser rfl rfl

/-- C7 counterexample: in the `part_000` revision, settling the commission of
a 3-unit referee reward (amount 3 × 0.05 = 0.15) against a referrer with
balance 10 leaves the balance at 10 and records a transaction of amount 0 —
the referrer is credited 0, not the claimed 0.15. -/
theorem commission_floored_cex :
    (P0.handleCommission 0 2 1 (3 * P0.REFERRAL_COMMISSION_RATE) P0.commissionScenario).1
      = .commissionOk 0 2 ∧
    tblGet (P0.handleCommission 0 2 1 (3 * P0.REFERRAL_COMMISSION_RATE) P0.commissionScenario).2.users 2
      = some { P0.demoUser with balance := 10, last_activity := some 0 } ∧
    (P0.handleCommission 0 2 1 (3 * P0.REFERRAL_COMMISSION_RATE) P0.commissionScenario).2.transactions
      = [⟨2, "commission", 0, 1, 0⟩] ∧
    (0 : ℚ) ≠ 15 / 100 := by
  have hf : ((⌊(3 * P0.REFERRAL_COMMISSION_RATE : ℚ)⌋ : ℤ) : ℚ) = 0 := by
    norm_num [P0.REFERRAL_COMMISSION_RATE]
  refine ⟨?_, ?_, ?_, by norm_num⟩ <;>
    norm_num +decide [P0.handleCommission, P0.commissionScenario, P0.demoUser,
      hf, tblGet, tblUpd]

/-- `handleCommission` of the `part_000` revision touches no `users` row other
than the referrer's. -/
theorem handleCommission_frame (now : Nat) (rid ruid : Int) (amount : ℚ)
    (st : P0.State) (uid : Int) (h : uid ≠ rid) :
    tblGet (P0.handleCommission now rid ruid amount st).2.users uid
      = tblGet st.users uid := by
  unfold P0.handleCommission
  rcases hg : tblGet st.users rid with _ | r
  · rfl
  · by_cases hb : r.is_banned
    · simp [hb]
    · simp [hb, tblGet_tblUpd_ne st.users rid uid _ h]

/-- C8: commission settlement never touches the referee.  In the `part_000`
revision, whatever happens to the dispatched commission call — nothing was
dispatched, the call is lost, or `handleCommission` runs and succeeds or
aborts — the referee's `users` row after settlement is exactly the row the
watch-ad handler left (same balance and quota counters), and the response was
produced before settlement, so it is unaffected by construction.  In the
`src/api/index.js` revision, `processCommission` likewise never modifies any
row but the referrer's. -/
theorem commission_failure_frame :
    (∀ (now settleNow : Nat) (uid : Int) (aid : String) (st : P0.State) (f : P0.DispatchFate),
      ((P0.handleWatchAd now uid aid st).dispatched.all (fun m => m.referral_id != uid)) = true →
      tblGet (P0.settleCommission settleNow f (P0.handleWatchAd now uid aid st).dispatched
          (P0.handleWatchAd now uid aid st).state).users uid
        = tblGet (P0.handleWatchAd now uid aid st).state.users uid)
    ∧ (∀ (users : List (Int × Api.User)) (hist : List Api.CommissionHistoryEntry)
        (rid refereeId uid : Int) (src : ℚ), uid ≠ rid →
      tblGet (Api.processCommission users hist rid refereeId src).2.1 uid
        = tblGet users uid) := by
  constructor
  · intro now settleNow uid aid st f h
    rcases hd : (P0.handleWatchAd now uid aid st).dispatched with _ | m
    · cases f <;> rfl
    · rw [hd] at h
      simp only [Option.all] at h
      have hne : m.referral_id ≠ uid := by simpa using h
      cases f with
      | lost => rfl
      | delivered =>
        exact handleCommission_frame settleNow m.referral_id m.user_id m.amount
          (P0.handleWatchAd now uid aid st).state uid hne.symm
  · intro users hist rid refereeId uid src h
    unfold Api.processCommission
    by_cases hs : (src * Api.REFERRAL_COMMISSION_RATE : ℚ) < 1 / 1000000
    · rw [if_pos hs]
    · rw [if_neg hs]
      rcases hg : tblGet users rid with _ | r
      · rfl
      · by_cases hb : r.is_banned
        · simp [hb]
        · simp [hb, tblGet_tblUpd_ne users rid uid _ h]

/-- C8 witness: in the concrete referral scenario (referee 1, referrer 2),
delivering the dispatched commission leaves referee 1's row exactly as the
watch-ad handler wrote it. -/
theorem commission_failure_frame_witness :
    tblGet (P0.settleCommission 20000 .delivered
        (P0.handleWatchAd 10000 1 "tokc" P0.refScenario).dispatched
        (P0.handleWatchAd 10000 1 "tokc" P0.refScenario).state).users 1
      = tblGet (P0.handleWatchAd 10000 1 "tokc" P0.refScenario).state.users 1 :=
  commission_failure_frame.1 10000 20000 1 "tokc" P0.refScenario .delivered
    (by norm_num +decide [P0.handleWatchAd, P0.consumeActionId, P0.isCooldownActive,
      P0.refScenario, P0.demoUser, P0.ACTION_ID_EXPIRY_MS, P0.MIN_TIME_BETWEEN_ACTIONS_MS,
      P0.DAILY_MAX_ADS, P0.REWARD_PER_AD, Option.all, tblGet, tblDel, tblUpd])

/-- C10: for a request of type `commission`, both revisions' main handlers
skip the `initData` security check and the `user_id` requirement and dispatch
to their commission handler regardless of `initData` presence or validity and
of `user_id`.  In `src/api/index.js` that handler always rejects with status
403 and changes nothing; in `part_000` it credits `floor(amount)` to the
caller-chosen referrer id whenever that row exists and is not banned. -/
theorem commission_request_routing :
    (∀ (initData : Option String) (valid : Bool) (uid : Option Int),
      Api.routeRequest ⟨"commission", initData, uid⟩ valid = .toHandler "commission" ∧
      P0.routeRequest ⟨"commission", initData, uid⟩ valid = .toHandler "commission")
    ∧ (∀ st : Api.State, Api.handleCommission st
        = (.err "Direct commission claims are not allowed." 403, st))
    ∧ (∀ (now : Nat) (rid uid : Int) (amount : ℚ) (st : P0.State) (r : P0.User),
      tblGet st.users rid = some r → r.is_banned = false →
      (P0.handleCommission now rid uid amount st).1 = .commissionOk (⌊amount⌋ : ℚ) rid ∧
      tblGet (P0.handleCommission now rid uid amount st).2.users rid
        = some { r with balance := r.balance + (⌊amount⌋ : ℚ), last_activity := some now }) := by
  refine ⟨?_, ?_, ?_⟩
  · intro i v u
    constructor <;> simp [Api.routeRequest, P0.routeRequest]
  · intro st
    rfl
  · intro now rid uid amount st r hget hban
    unfold P0.handleCommission
    rw [hget]
    simp only []
    rw [if_neg (by simp [hban])]
    exact ⟨rfl, by rw [tblGet_tblUpd_self st.users rid _ r hget]⟩

/-- C10 witness: with no `initData` and no `user_id`, a `commission` request
is routed to the commission handler in both revisions, and in the `part_000`
revision it credits `floor(3.5) = 3` to referrer 2. -/
theorem commission_request_routing_witness :
    Api.routeRequest ⟨"commission", none, none⟩ false = .toHandler "commission" ∧
    P0.routeRequest ⟨"commission", none, none⟩ false = .toHandler "commission" ∧
    (P0.handleCommission 0 2 1 (7 / 2) P0.commissionScenario).1
      = .commissionOk (⌊(7 / 2 : ℚ)⌋ : ℚ) 2 :=
  ⟨(commission_request_routing.1 none false none).1,
   (commission_request_routing.1 none false none).2,
   (commission_request_routing.2.2 0 2 1 (7 / 2) P0.commissionScenario
      { P0.demoUser with balance := 10 } rfl rfl).1⟩

